import Mathlib

/-!
Verification of the Beat Saber Auto Mapper bootstrap and job-orchestration
core (src/app.py, src/julia_setup.py, src/setup.py) against its
natural-language specification.  Each Python function that a claim touches
is shallowly embedded as an executable Lean definition; filesystem and
subprocess outcomes the code merely observes are passed in as explicit
environment records.  Paths are modelled either as plain strings joined
with "/" (where only existence at a path matters) or as component lists
(where os.path.join/basename structure matters).
-/

/-! ## Julia download table and Linux architecture selection
(src/julia_setup.py lines 14-31 and 175-191). -/

/-- Python `s.endswith(suffix)`, on the underlying character lists (the
core String.endsWith does not reduce in the kernel). -/
def strEndsWith (s suffix : String) : Bool :=
  suffix.data.isSuffixOf s.data

/-- Helper for Python's `needle in hay`: does the needle occur in the
character list? -/
def containsSubAux (needle : List Char) : List Char → Bool
  | [] => needle.isEmpty
  | c :: rest => needle.isPrefixOf (c :: rest) || containsSubAux needle rest

/-- Python `needle in hay` on strings. -/
def strContains (hay needle : String) : Bool :=
  containsSubAux needle.data hay.data

/-- JULIA_VERSION = "1.8.5" (src/julia_setup.py line 15). -/
def JULIA_VERSION : String := "1.8.5"

/-- Python `JULIA_VERSION.rsplit('.', 1)[0]`, which the module evaluates
at load time to the major.minor prefix of "1.8.5". -/
def juliaMajorMinor : String := "1.8"

/-- The `JULIA_URLS["Linux"]` dictionary (src/julia_setup.py lines 23-26),
as a lookup from architecture key to download URL. -/
def juliaUrlLinux (arch : String) : Option String :=
  if arch = "x64" then
    some ("https://julialang-s3.julialang.org/bin/linux/x64/" ++ juliaMajorMinor
      ++ "/julia-" ++ JULIA_VERSION ++ "-linux-x86_64.tar.gz")
  else if arch = "aarch64" then
    some ("https://julialang-s3.julialang.org/bin/linux/aarch64/" ++ juliaMajorMinor
      ++ "/julia-" ++ JULIA_VERSION ++ "-linux-aarch64.tar.gz")
  else
    none

/-- install_julia_linux's architecture selection (src/julia_setup.py line 181):
`arch = "x64" if platform.machine().endswith('64') else "aarch64" if
platform.machine() == "aarch64" else None`. -/
def linuxArchSelection (machine : String) : Option String :=
  if strEndsWith machine "64" then some "x64"
  else if machine = "aarch64" then some "aarch64"
  else none

/-- The URL install_julia_linux downloads for a detected machine string:
arch selection followed by the JULIA_URLS lookup; `none` is the
unsupported-architecture early return (line 182-185). -/
def linuxDownloadUrl (machine : String) : Option String :=
  (linuxArchSelection machine).bind juliaUrlLinux

/-! ## Difficulty selection (src/app.py lines 1074-1096). -/

/-- The full difficulty list used when nothing is selected
(src/app.py line 1090). -/
def allDifficulties : List String := ["Easy", "Normal", "Hard", "Expert", "ExpertPlus"]

/-- The list built by the five `if <flag>: difficulties.append(...)`
statements (src/app.py lines 1076-1086), in source order. -/
def selectedDifficulties (easy normal hard expert expert_plus : Bool) : List String :=
  (if easy then ["Easy"] else []) ++
  (if normal then ["Normal"] else []) ++
  (if hard then ["Hard"] else []) ++
  (if expert then ["Expert"] else []) ++
  (if expert_plus then ["ExpertPlus"] else [])

/-- process_audio_with_difficulties' difficulties_arg (src/app.py lines
1088-1093): an empty selection is replaced by the full list, then the list
is newline-joined. -/
def difficultiesArg (easy normal hard expert expert_plus : Bool) : String :=
  let difficulties := selectedDifficulties easy normal hard expert expert_plus
  let difficulties := if difficulties = [] then allDifficulties else difficulties
  String.intercalate "\n" difficulties

/-! ## Package bootstrapper (src/julia_setup.py lines 326-390). -/

/-- essential_packages (src/julia_setup.py line 342). -/
def essential_packages : List String := ["WAV", "FFTW", "DSP", "JSON"]

/-- Environment of one setup_julia_packages run: the exit code of each
per-package `Pkg.add` subprocess, whether an unexpected exception fires
inside the try block, whether src/setup.jl exists, and the setup script's
exit code. -/
structure PkgEnv where
  pkgAddReturncode : String → Int
  raisesEx : Bool
  setupScriptExists : Bool
  setupScriptReturncode : Int

/-- The per-package loop (src/julia_setup.py lines 344-365): every package in
essential_packages is attempted in order; a non-zero exit code is only
logged and the loop continues to the next package. -/
def packageInstallAttempts (env : PkgEnv) : List (String × Int) :=
  essential_packages.map (fun p => (p, env.pkgAddReturncode p))

/-- setup_julia_packages (src/julia_setup.py lines 326-390): runs the
(best-effort) package loop, then requires src/setup.jl to exist (line 370)
and to exit 0 (line 381); any exception in the try block yields False
(lines 388-390). -/
def setup_julia_packages (env : PkgEnv) : Bool :=
  if env.raisesEx then false
  else
    let _attempts := packageInstallAttempts env
    if ¬ env.setupScriptExists then false
    else if env.setupScriptReturncode ≠ 0 then false
    else true

/-! ## Progress reporting (src/app.py lines 136-142, src/julia_setup.py
lines 104-111 and 175-194). -/

/-- Outcome of one call into the UI-facing progress channel. -/
inductive ProgressCallResult where
  | ok
  | raised
deriving DecidableEq, Repr

/-- Calling `progress(value, description)` on the UI-facing channel:
returns normally or raises. -/
def callChannel (channelRaises : Bool) : ProgressCallResult :=
  if channelRaises then .raised else .ok

/-- The wrapped update_progress helper defined inside process_audio_file,
download_file, install_julia_windows, install_julia, setup_julia_packages,
setup_pyjulia and ensure_julia_installation:
`try: if progress: progress(value, description) except Exception as e:
print(...)` — any exception from the channel is caught and logged. -/
def update_progress (hasProgress channelRaises : Bool) : ProgressCallResult :=
  if hasProgress then
    match callChannel channelRaises with
    | .raised => .ok
    | .ok => .ok
  else .ok

/-- Environment for the start of install_julia_linux. -/
structure LinuxInstallEnv where
  hasProgress : Bool
  channelRaises : Bool
  machine : String

/-- What install_julia_linux's entry does before any download. -/
inductive LinuxInstallOutcome where
  | raisedOut
  | unsupportedArch
  | proceeds (url : String)
deriving DecidableEq, Repr

/-- The start of install_julia_linux (src/julia_setup.py lines 175-191):
`if progress: progress(0, "Preparing to install Julia on Linux")` runs with
no surrounding try/except, so a raising channel propagates the exception
out of the function; otherwise the architecture is selected and the URL
looked up (a failed dict lookup would also propagate as KeyError). -/
def install_julia_linux_start (env : LinuxInstallEnv) : LinuxInstallOutcome :=
  if env.hasProgress && env.channelRaises then .raisedOut
  else
    match linuxArchSelection env.machine with
    | none => .unsupportedArch
    | some arch =>
      match juliaUrlLinux arch with
      | some url => .proceeds url
      | none => .raisedOut

/-! ## Zip packaging of the discovered output directory
(src/app.py lines 296-305).  Paths are component lists: os.path.join
appends a component, os.path.basename keeps the last component. -/

/-- The root path os.walk reports for a file whose directory lies at
relDirs below the discovered folder (the folder itself is a bare name in
the current working directory). -/
def osWalkRoot (generated_folder : String) (relDirs : List String) : List String :=
  generated_folder :: relDirs

/-- os.path.basename on a component-list path. -/
def listBasename (p : List String) : String := p.getLastD ""

/-- The archive name the zip loop gives a file (src/app.py line 302):
`os.path.join(os.path.basename(root), file)`. -/
def zipEntryArcname (generated_folder : String) (relDirs : List String)
    (fileName : String) : List String :=
  [listBasename (osWalkRoot generated_folder relDirs), fileName]

/-- The archive name the spec describes: the discovered directory's own
name joined with the file's relative path inside it. -/
def specArcname (generated_folder : String) (relDirs : List String)
    (fileName : String) : List String :=
  generated_folder :: (relDirs ++ [fileName])

/-- One file inside the discovered output directory: the directory
components of its path relative to the discovered directory, its name, and
its bytes. -/
structure ZipSourceFile where
  relDirs : List String
  name : String
  bytes : List Nat
deriving DecidableEq, Repr

/-- The zip archive the double loop over os.walk builds (src/app.py lines
298-302): one entry per file, holding the file's bytes, stored under
zipEntryArcname. -/
def zipFolderEntries (generated_folder : String) (files : List ZipSourceFile) :
    List (List String × List Nat) :=
  files.map (fun f => (zipEntryArcname generated_folder f.relDirs f.name, f.bytes))

/-! ## Environment probe for the media tool (check_command, identical in
src/app.py lines 66-115 and src/setup.py lines 15-64).  Paths are
component lists; the PATH variable is a list of directory paths. -/

/-- A filesystem path as its components. -/
abbrev FPath := List String

/-- Environment of one check_command("ffmpeg", ...) call. -/
structure ProbeEnv where
  windows : Bool
  pathDirs : List FPath
  cwd : FPath
  userprofile : FPath
  isExecFile : FPath → Bool
  fallbackRuns : Bool

/-- The executable name looked for: 'ffmpeg.exe' on Windows, 'ffmpeg'
elsewhere (src/app.py line 75). -/
def ffmpegExeName (windows : Bool) : String :=
  if windows then "ffmpeg.exe" else "ffmpeg"

/-- The Windows common_locations list (src/app.py lines 94-98):
C:\ffmpeg\ffmpeg.exe, C:\Program Files\ffmpeg\ffmpeg.exe and
USERPROFILE\ffmpeg\ffmpeg.exe, as component paths. -/
def commonLocations (env : ProbeEnv) : List FPath :=
  [["C:", "ffmpeg", "ffmpeg.exe"],
   ["C:", "Program Files", "ffmpeg", "ffmpeg.exe"],
   env.userprofile ++ ["ffmpeg", "ffmpeg.exe"]]

/-- check_command for ffmpeg (src/app.py lines 66-115 = src/setup.py lines
15-64): scan the PATH directories, then the current working directory,
then ./ffmpeg/, then (Windows only) the common locations — only that last
branch mutates PATH, by prepending `os.path.dirname(location)` (line 105:
`os.environ['PATH'] = ffmpeg_dir + os.pathsep + os.environ.get('PATH',...)`);
finally fall back to spawning `ffmpeg --version`.  Returns (found, PATH
after the call). -/
def check_command_ffmpeg (env : ProbeEnv) : Bool × List FPath :=
  let exe := ffmpegExeName env.windows
  match env.pathDirs.find? (fun d => env.isExecFile (d ++ [exe])) with
  | some _ => (true, env.pathDirs)
  | none =>
    let ffmpeg_in_cwd := env.cwd ++ [exe]
    let ffmpeg_in_dir := env.cwd ++ ["ffmpeg", exe]
    if env.isExecFile ffmpeg_in_cwd then (true, env.pathDirs)
    else if env.isExecFile ffmpeg_in_dir then (true, env.pathDirs)
    else
      match (if env.windows then (commonLocations env).find? env.isExecFile
             else none) with
      | some location => (true, location.dropLast :: env.pathDirs)
      | none => (env.fallbackRuns, env.pathDirs)

/-! ## Installer return values (src/julia_setup.py lines 143-173 and
424-461).  The Python functions return values of several runtime types
(None, booleans, path strings); PyVal renders that union, with Python's
truthiness. -/

/-- A Python value flowing between the installer functions. -/
inductive PyVal where
  | pynone
  | bool (b : Bool)
  | str (s : String)
deriving DecidableEq, Repr

/-- Python truthiness of a PyVal. -/
def PyVal.truthy : PyVal → Bool
  | .pynone => false
  | .bool b => b
  | .str s => !s.isEmpty

/-- Whether a PyVal is a path string at all. -/
def PyVal.isPath : PyVal → Bool
  | .str _ => true
  | _ => false

/-- Environment of one install_julia_windows run: the detected machine
string, whether download_file completes (it raises on error, line 141),
and whether the installer subprocess exits cleanly (`check=True`,
line 168). -/
structure WinEnv where
  machine : String
  downloadOk : Bool
  installerOk : Bool

/-- install_julia_windows (src/julia_setup.py lines 143-173): picks x64/x86
from the machine string, downloads the installer (a download error
propagates), runs it, and returns the boolean True on success or False on
SubprocessError — with no re-probe of the installation and no path
construction. -/
def install_julia_windows (env : WinEnv) : Except String PyVal :=
  let _arch := if strEndsWith env.machine "64" then "x64" else "x86"
  if ¬ env.downloadOk then .error "download failed"
  else if env.installerOk then .ok (.bool true)
  else .ok (.bool false)

/-- setup_julia_packages as called with its julia_path argument
(src/julia_setup.py lines 326-390).  `subprocess.run([julia_path, "-e",
...])` requires a string program name: handed a non-string julia_path
(such as the boolean True install_julia_windows returns), the very first
Pkg.add raises TypeError inside the try block and the except at lines
388-390 returns False; a string path proceeds into the two-phase run whose
subprocess outcomes PkgEnv supplies. -/
def setup_julia_packages_with (julia_path : PyVal) (env : PkgEnv) : Bool :=
  match julia_path with
  | .str _ => setup_julia_packages env
  | _ => false

/-- setup_pyjulia as called with its julia_path argument (src/julia_setup.py
lines 392-422).  The assignment os.environ["JULIA_EXECUTABLE"] =
julia_path requires a string value: a non-string julia_path raises
TypeError inside the try and the except at lines 420-422 returns False; a
string path succeeds exactly when the PyJulia install/eval sequence (an
external library, supplied as pyjuliaOk) does. -/
def setup_pyjulia_with (julia_path : PyVal) (pyjuliaOk : Bool) : Bool :=
  match julia_path with
  | .str _ => pyjuliaOk
  | _ => false

/-- Environment of one ensure_julia_installation run: what
check_julia_installation returns, what install_julia returns (or raises),
the subprocess outcomes setup_julia_packages sees, and whether the PyJulia
library sequence succeeds. -/
structure EnsureEnv where
  checkResult : Option String
  installResult : Except String PyVal
  pkgEnv : PkgEnv
  pyjuliaOk : Bool

/-- ensure_julia_installation (src/julia_setup.py lines 424-461):
julia_path = check_julia_installation(); if falsy, julia_path =
install_julia(...) (whose exceptions propagate); if still falsy return
None; if setup_julia_packages(julia_path, ...) or setup_pyjulia(julia_path,
...) fails return None; else return julia_path as it stands — whatever
runtime type it has. -/
def ensure_julia_installation (env : EnsureEnv) : Except String PyVal :=
  let checked : PyVal := match env.checkResult with
    | some p => .str p
    | none => .pynone
  match (if checked.truthy then Except.ok checked else env.installResult) with
  | .error e => .error e
  | .ok julia_path =>
    if ¬ julia_path.truthy then .ok .pynone
    else if ¬ setup_julia_packages_with julia_path env.pkgEnv then .ok .pynone
    else if ¬ setup_pyjulia_with julia_path env.pyjuliaOk then .ok .pynone
    else .ok julia_path

/-! ## The job orchestrator: process_audio_file (src/app.py lines 133-328).
The filesystem is a predicate on string paths ("/"-joined); the external
process, subprocess exit data and the post-run directory listing are
inputs.  Progress calls inside this function go through the swallowing
update_progress wrapper and never alter state, so they are omitted. -/

/-- TEMP_DIR (src/app.py line 58). -/
def TEMP_DIR : String := "temp_uploads"

/-- OUTPUT_DIR (src/app.py line 59). -/
def OUTPUT_DIR : String := "output_maps"

/-- os.path.join on "/"-joined string paths. -/
def pathJoin (a b : String) : String := a ++ "/" ++ b

/-- One entry of os.listdir() with its os.path.isdir answer. -/
structure DirEntry where
  name : String
  isDir : Bool
deriving DecidableEq, Repr

/-- The discovery list (src/app.py line 275): `[f for f in os.listdir() if
f.endswith("_" + song_name) and os.path.isdir(f)]`. -/
def generatedFolders (listing : List DirEntry) (song_name : String) : List String :=
  (listing.filter (fun e => strEndsWith e.name ("_" ++ song_name) && e.isDir)).map
    DirEntry.name

/-- Python `os.path.splitext(file_name)[0]` for ordinary file names: drop
the extension after the last dot; a dotless name is returned whole.  (The
Python function additionally keeps a dot that starts the base name; the
jobs this module handles name files with a real extension.) -/
def splitextBase (s : String) : String :=
  if s.data.contains '.' then
    String.mk ((s.data.reverse.dropWhile (fun c => c != '.')).drop 1).reverse
  else s

/-- Python `s[:1000] + "..." if len(s) > 1000 else s` (src/app.py lines
240 and 243). -/
def excerpt (s : String) : String :=
  if s.data.length > 1000 then String.mk (s.data.take 1000) ++ "..." else s

/-- A filesystem as path membership. -/
def FS := String → Bool

/-- Creating (or truncating/appending) a file at a path. -/
def addFile (fs : FS) (p : String) : FS :=
  fun q => if q = p then true else fs q

/-- Removing the object at a path. -/
def removeFile (fs : FS) (p : String) : FS :=
  fun q => if q = p then false else fs q

/-- The finally block (src/app.py lines 325-328): `if
os.path.exists(temp_file_path): os.remove(temp_file_path)`. -/
def cleanupTempFile (fs : FS) (temp_file_path : String) : FS :=
  if fs temp_file_path then removeFile fs temp_file_path else fs

/-- Environment of one process_audio_file call.  audioFile is the uploaded
file's base name (none = no upload, line 144); juliaPath is the resolved
runtime path (none = JULIA_PATH was unset and ensure_julia_installation
failed, lines 149-153); ffmpegPath is the media-tool resolution outcome
(lines 200-219); returncode/stderrText/stdoutText come from the spawned
process (lines 231-232); extEffect is the external process's filesystem
effect; listing is os.listdir() when discovery runs (line 275); raisesEx
marks an unexpected exception inside the try block, with its message and
traceback text (lines 310-319). -/
structure JobEnv where
  audioFile : Option String
  juliaPath : Option String
  ffmpegPath : Option String
  returncode : Int
  stderrText : String
  stdoutText : String
  extEffect : FS → FS
  listing : List DirEntry
  raisesEx : Bool
  exMessage : String
  tracebackText : String

/-- What process_audio_file hands back to the UI. -/
inductive JobResult where
  | noInput
  | juliaInstallFailed
  | ffmpegMissing
  | seeLog (logBasename : String)
  | noFolderSeeLog (logBasename : String)
  | zipFile (path : String)
deriving DecidableEq, Repr

/-- The state process_audio_file leaves behind: the filesystem, the lines
written to the per-job log file in order, and the returned value. -/
structure JobTrace where
  fs : FS
  log : List String
  result : JobResult

/-- log_message (src/app.py lines 164-167): print, then append the line to
the log file (opening it in append mode creates it when absent). -/
def log_message (fs : FS) (log : List String) (log_file msg : String) :
    FS × List String :=
  (addFile fs log_file, log ++ [msg])

/-- The troubleshooting hints the failure branch appends (src/app.py lines
246-264), chosen by substring scans over stderr. -/
def troubleshootingHints (stderrText ffmpeg_path : String) : List String :=
  if strContains stderrText "no such file or directory" &&
      strContains stderrText "ffmpeg" then
    ["Possible FFmpeg issue detected:",
     "Current FFmpeg path: " ++ ffmpeg_path,
     "Checking for FFmpeg in common locations:"]
  else if strContains stderrText "adelay" then
    ["Possible issue with FFmpeg adelay filter"]
  else if strContains stderrText "WAV" && strContains stderrText "not found" then
    ["Julia WAV package may be missing"]
  else []

/-- process_audio_file (src/app.py lines 133-328), step for step:
audio-None and Julia-resolution early returns; job directory and log file
creation; the temp copy; the try block (difficulty file, ffmpeg
resolution with its plain-string error return, config file, the spawn and
its outcome classification, discovery, cover fallback, zip, rmtree of the
discovered folder); the except block; and the finally block that removes
the temp copy on every path through try/except. -/
def process_audio_file (env : JobEnv) (job_id : String) (fs0 : FS) : JobTrace :=
  match env.audioFile with
  | none => { fs := fs0, log := [], result := .noInput }
  | some file_name =>
    match env.juliaPath with
    | none => { fs := fs0, log := [], result := .juliaInstallFailed }
    | some julia_path =>
      let output_folder := pathJoin OUTPUT_DIR job_id
      let log_file := pathJoin output_folder "process_log.txt"
      let fs1 := addFile fs0 output_folder
      let st2 := log_message fs1 [] log_file ("Starting job " ++ job_id)
      let song_name := splitextBase file_name
      let st3 := log_message st2.1 st2.2 log_file ("Processing song: " ++ song_name)
      let temp_file_path := pathJoin TEMP_DIR file_name
      let fs4 := addFile st3.1 temp_file_path
      let st5 := log_message fs4 st3.2 log_file "Audio file uploaded to temp directory"
      let difficulties_file := pathJoin TEMP_DIR (job_id ++ "_difficulties.txt")
      let fs6 := addFile st5.1 difficulties_file
      match env.ffmpegPath with
      | none =>
        { fs := cleanupTempFile fs6 temp_file_path, log := st5.2,
          result := .ffmpegMissing }
      | some ffmpeg_path =>
        let config_file := pathJoin TEMP_DIR (job_id ++ "_config.txt")
        let fs7 := addFile fs6 config_file
        let cmdLine := String.intercalate " "
          [julia_path, "src/mapsongs.jl", temp_file_path, difficulties_file, config_file]
        let st8 := log_message fs7 st5.2 log_file ("Executing command: " ++ cmdLine)
        let fs9 := env.extEffect st8.1
        if env.raisesEx then
          let e1 := log_message fs9 st8.2 log_file
            ("Unexpected error: " ++ env.exMessage)
          let e2 := log_message e1.1 e1.2 log_file "===== TRACEBACK ====="
          let e3 := log_message e2.1 e2.2 log_file env.tracebackText
          { fs := cleanupTempFile e3.1 temp_file_path, log := e3.2,
            result := .seeLog "process_log.txt" }
        else if env.returncode ≠ 0 then
          let f1 := log_message fs9 st8.2 log_file
            ("Error: Process returned non-zero exit code " ++ toString env.returncode)
          let f2 := log_message f1.1 f1.2 log_file "===== ERROR DETAILS ====="
          let f3 := log_message f2.1 f2.2 log_file
            ("Error message: " ++ excerpt env.stderrText)
          let f4 := log_message f3.1 f3.2 log_file "===== STDOUT ====="
          let f5 := log_message f4.1 f4.2 log_file (excerpt env.stdoutText)
          let f6 := log_message f5.1 f5.2 log_file "===== TROUBLESHOOTING ====="
          let f7 := (troubleshootingHints env.stderrText ffmpeg_path).foldl
            (fun st m => log_message st.1 st.2 log_file m) f6
          { fs := cleanupTempFile f7.1 temp_file_path, log := f7.2,
            result := .seeLog "process_log.txt" }
        else
          match generatedFolders env.listing song_name with
          | [] =>
            let g1 := log_message fs9 st8.2 log_file
              "Error: Could not find generated map folder"
            let g2 := log_message g1.1 g1.2 log_file
              ("Looking for folders ending with: _" ++ song_name)
            let g3 := log_message g2.1 g2.2 log_file
              ("Files in current directory: " ++
                String.intercalate ", " ((env.listing.map DirEntry.name).take 20))
            { fs := cleanupTempFile g3.1 temp_file_path, log := g3.2,
              result := .noFolderSeeLog "process_log.txt" }
          | generated_folder :: _ =>
            let cover_path := pathJoin generated_folder "cover.jpg"
            let fsC := if fs9 cover_path then fs9 else addFile fs9 cover_path
            let zip_path := pathJoin output_folder (song_name ++ "_beatsaber_maps.zip")
            let fsZ := addFile fsC zip_path
            let fsR := removeFile fsZ generated_folder
            { fs := cleanupTempFile fsR temp_file_path, log := st8.2,
              result := .zipFile zip_path }

/-! ## Helper lemmas about the filesystem model. -/

theorem addFile_self (fs : FS) (p : String) : addFile fs p p = true := by
  unfold addFile
  simp

theorem addFile_true (fs : FS) (p q : String) (h : fs q = true) :
    addFile fs p q = true := by
  unfold addFile
  split <;> simp [h]

theorem removeFile_other (fs : FS) (p q : String) (h : q ≠ p) :
    removeFile fs p q = fs q := by
  unfold removeFile
  simp [h]

theorem cleanupTempFile_removes (fs : FS) (p : String) :
    cleanupTempFile fs p p = false := by
  unfold cleanupTempFile removeFile
  by_cases h : fs p = true <;> simp [h]

theorem cleanupTempFile_other (fs : FS) (p q : String) (h : q ≠ p) :
    cleanupTempFile fs p q = fs q := by
  unfold cleanupTempFile
  split
  · exact removeFile_other fs p q h
  · rfl

theorem logFold_fs_true (log_file : String) (hints : List String)
    (st : FS × List String) (q : String) (h : st.1 q = true) :
    ((hints.foldl (fun st m => log_message st.1 st.2 log_file m) st).1) q = true := by
  induction hints generalizing st with
  | nil => exact h
  | cons a l ih => exact ih _ (addFile_true _ _ _ h)

theorem logFold_mem (log_file : String) (hints : List String)
    (st : FS × List String) (m : String) (h : m ∈ st.2) :
    m ∈ (hints.foldl (fun st m => log_message st.1 st.2 log_file m) st).2 := by
  induction hints generalizing st with
  | nil => exact h
  | cons a l ih => exact ih _ (by simp [log_message]; exact Or.inl h)

/-! ## C4 -/

/-- C4: code-bug record.  On Linux, the machine string "aarch64" selects
architecture "x64" (because "aarch64".endswith('64') is true the
`== "aarch64"` arm is dead), so the x86_64 tarball — not the listed
aarch64 tarball — is downloaded on an aarch64 machine; indeed no machine
string can ever select "aarch64". -/
theorem C4_aarch64_downloads_x64_tarball :
    linuxArchSelection "aarch64" = some "x64" ∧
    linuxDownloadUrl "aarch64" =
      some "https://julialang-s3.julialang.org/bin/linux/x64/1.8/julia-1.8.5-linux-x86_64.tar.gz" ∧
    (∀ m : String, linuxArchSelection m ≠ some "aarch64") := by
  refine ⟨by decide, by decide, ?_⟩
  intro m h
  unfold linuxArchSelection at h
  by_cases hm : strEndsWith m "64"
  · simp [hm] at h
  · by_cases he : m = "aarch64"
    · subst he
      exact hm (by decide)
    · simp [hm, he] at h

/-! ## C9 -/

/-- C9: an all-false difficulty selection is normalized to the full
newline-joined five-value list, and any non-empty selection is passed
through as the newline-joined list of exactly the chosen values. -/
theorem C9_difficulty_normalization :
    ∀ easy normal hard expert expert_plus : Bool,
      ((easy || normal || hard || expert || expert_plus) = false →
        difficultiesArg easy normal hard expert expert_plus =
          "Easy\nNormal\nHard\nExpert\nExpertPlus") ∧
      ((easy || normal || hard || expert || expert_plus) = true →
        selectedDifficulties easy normal hard expert expert_plus ≠ [] ∧
        difficultiesArg easy normal hard expert expert_plus =
          String.intercalate "\n"
            (selectedDifficulties easy normal hard expert expert_plus)) := by
  decide

/-! ## C7 -/

/-- C7: setup_julia_packages attempts every package of the fixed list in
order regardless of the per-package exit codes, and returns success
exactly when no exception fires, the setup script exists and the script
exits 0 — the per-package results do not appear in the success condition
at all. -/
theorem C7_bootstrapper_two_phase :
    ∀ env : PkgEnv,
      (setup_julia_packages env = true ↔
        env.raisesEx = false ∧ env.setupScriptExists = true ∧
          env.setupScriptReturncode = 0) ∧
      (packageInstallAttempts env).map Prod.fst = essential_packages := by
  intro env
  constructor
  · unfold setup_julia_packages
    by_cases h1 : env.raisesEx <;> by_cases h2 : env.setupScriptExists <;>
      by_cases h3 : env.setupScriptReturncode = 0 <;> simp [h1, h2, h3]
  · rfl

/-! ## C2 -/

/-- C2: counterexample.  A file one directory deep inside the discovered
folder (abcd_song/Easy/notes.dat) is stored in the archive as
Easy/notes.dat — the zip loop keys the entry on os.path.basename(root) —
not under the discovered directory's own name as the claim states. -/
theorem C2_nested_file_flattened :
    zipEntryArcname "abcd_song" ["Easy"] "notes.dat" = ["Easy", "notes.dat"] ∧
    specArcname "abcd_song" ["Easy"] "notes.dat" = ["abcd_song", "Easy", "notes.dat"] ∧
    zipEntryArcname "abcd_song" ["Easy"] "notes.dat" ≠
      specArcname "abcd_song" ["Easy"] "notes.dat" := by
  decide

/-- C2 amended: the archive holds one entry per file with the file's bytes
unchanged, stored under the basename of the file's immediate parent
directory joined with the file name; this coincides with the claimed path
(discovered-directory name joined with the relative path) exactly for
files lying directly in the discovered directory. -/
theorem C2_amended_arcnames :
    ∀ (generated_folder : String) (files : List ZipSourceFile),
      zipFolderEntries generated_folder files =
        files.map (fun f =>
          ([f.relDirs.getLastD generated_folder, f.name], f.bytes)) ∧
      ∀ f : ZipSourceFile, f.relDirs = [] →
        zipEntryArcname generated_folder f.relDirs f.name =
          specArcname generated_folder f.relDirs f.name := by
  intro g files
  constructor
  · unfold zipFolderEntries zipEntryArcname osWalkRoot listBasename
    refine List.map_inj_left.mpr ?_
    intro f _
    rw [List.getLastD_cons]
  · intro f hf
    simp [zipEntryArcname, specArcname, osWalkRoot, listBasename, hf]

/-! ## C8 -/

/-- C8: counterexample.  With a raising UI channel, install_julia_linux's
very first progress call propagates the exception out of the operation
(there is no try/except around it), while with a healthy channel the same
environment proceeds to the download — the reporting failure changes the
operation's outcome. -/
theorem C8_linux_progress_failure_aborts :
    install_julia_linux_start ⟨true, true, "x86_64"⟩ =
      LinuxInstallOutcome.raisedOut ∧
    install_julia_linux_start ⟨true, false, "x86_64"⟩ =
      LinuxInstallOutcome.proceeds
        "https://julialang-s3.julialang.org/bin/linux/x64/1.8/julia-1.8.5-linux-x86_64.tar.gz" := by
  decide

/-- C8 amended: every call made through the update_progress wrapper
returns normally whatever the channel does (the wrapper swallows the
exception), but install_julia_linux (like install_julia_macos) invokes the
channel directly, so a raising channel aborts that operation. -/
theorem C8_amended_wrapped_calls_swallow :
    ∀ (hasProgress channelRaises : Bool) (machine : String),
      update_progress hasProgress channelRaises = ProgressCallResult.ok ∧
      install_julia_linux_start ⟨true, true, machine⟩ =
        LinuxInstallOutcome.raisedOut := by
  intro hp cr machine
  refine ⟨?_, rfl⟩
  unfold update_progress callChannel
  cases hp <;> cases cr <;> rfl

/-! ## C6 -/

/-- A probe environment where the media tool is executable only in the
current working directory, and absent from every PATH directory. -/
def probeEnvCwdOnly : ProbeEnv :=
  { windows := false,
    pathDirs := [["usr", "bin"]],
    cwd := ["home", "app"],
    userprofile := ["home"],
    isExecFile := fun p => p == ["home", "app", "ffmpeg"],
    fallbackRuns := false }

/-- C6: counterexample.  When check_command finds ffmpeg in the current
working directory (outside PATH), it returns success with PATH unchanged —
the containing directory is not appended to the process-wide PATH. -/
theorem C6_cwd_find_leaves_path_unchanged :
    check_command_ffmpeg probeEnvCwdOnly = (true, [["usr", "bin"]]) ∧
    ["home", "app"] ∉ ([["usr", "bin"]] : List FPath) := by
  constructor
  · decide
  · decide

/-- C6 amended: check_command only ever mutates PATH in the Windows
well-known-location branch, and there it prepends (not appends) the
location's directory; a find in PATH, the working directory, ./ffmpeg or
via the fallback leaves PATH exactly as it was. -/
theorem C6_amended_path_mutation :
    ∀ env : ProbeEnv,
      (check_command_ffmpeg env).2 = env.pathDirs ∨
      (env.windows = true ∧ ∃ location,
        location ∈ commonLocations env ∧ env.isExecFile location = true ∧
        (check_command_ffmpeg env).1 = true ∧
        (check_command_ffmpeg env).2 = location.dropLast :: env.pathDirs) := by
  intro env
  obtain ⟨w, pd, cw, up, ie, fb⟩ := env
  cases w with
  | false =>
    left
    unfold check_command_ffmpeg
    cases hf : pd.find? (fun d => ie (d ++ [ffmpegExeName false])) with
    | some d => simp [hf]
    | none =>
      by_cases h1 : ie (cw ++ [ffmpegExeName false]) = true
      · simp [hf, h1]
      · by_cases h2 : ie (cw ++ ["ffmpeg", ffmpegExeName false]) = true
        · simp [hf, h1, h2]
        · simp [hf, h1, h2]
  | true =>
    unfold check_command_ffmpeg
    cases hf : pd.find? (fun d => ie (d ++ [ffmpegExeName true])) with
    | some d => left; simp [hf]
    | none =>
      by_cases h1 : ie (cw ++ [ffmpegExeName true]) = true
      · left; simp [hf, h1]
      · by_cases h2 : ie (cw ++ ["ffmpeg", ffmpegExeName true]) = true
        · left; simp [hf, h1, h2]
        · cases hc : (commonLocations ⟨true, pd, cw, up, ie, fb⟩).find? ie with
          | none => left; simp [hf, h1, h2, hc]
          | some location =>
            right
            refine ⟨rfl, location, List.mem_of_find?_eq_some hc,
              List.find?_some hc, ?_, ?_⟩
            · simp [hf, h1, h2, hc]
            · simp [hf, h1, h2, hc]

/-! ## C3 -/

/-- C3: counterexample.  On Windows with a successful download and a
cleanly exiting installer subprocess, install_julia_windows returns the
boolean True — a non-path value — and performs no version re-probe. -/
theorem C3_windows_success_is_bool :
    install_julia_windows ⟨"AMD64", true, true⟩ = Except.ok (PyVal.bool true) ∧
    PyVal.isPath (PyVal.bool true) = false :=
  ⟨rfl, rfl⟩

/-- C3 amended: install_julia_windows never produces a path string — after
a completed download it returns the boolean outcome of the installer
subprocess, with no re-probe — and ensure_julia_installation, when the
initial probe finds nothing and the Windows installer succeeds, always
returns the failure value None, because package setup rejects the boolean
julia_path (its first subprocess raises TypeError, caught as False): a
fresh Windows install can never yield a returned executable path. -/
theorem C3_amended_installer_values :
    ∀ (e : WinEnv) (env : EnsureEnv),
      (∀ s : String, install_julia_windows e ≠ Except.ok (PyVal.str s)) ∧
      (e.downloadOk = true →
        install_julia_windows e = Except.ok (PyVal.bool e.installerOk)) ∧
      (env.checkResult = none →
        env.installResult = install_julia_windows e →
        e.downloadOk = true → e.installerOk = true →
        ensure_julia_installation env = Except.ok PyVal.pynone) := by
  intro e env
  refine ⟨?_, ?_, ?_⟩
  · intro s h
    unfold install_julia_windows at h
    by_cases hd : e.downloadOk = true <;> by_cases hi : e.installerOk = true <;>
      simp [hd, hi] at h
  · intro hd
    unfold install_julia_windows
    by_cases hi : e.installerOk = true <;> simp [hd, hi]
  · intro h1 h2 hd hi
    have hw : install_julia_windows e = Except.ok (PyVal.bool true) := by
      unfold install_julia_windows
      simp [hd, hi]
    rw [hw] at h2
    unfold ensure_julia_installation
    rw [h1, h2]
    simp [PyVal.truthy, setup_julia_packages_with]

/-- C3 amended, witness: the amended theorem at the concrete environment
of a fresh, fully successful Windows install — ensure_julia_installation
still returns None. -/
theorem C3_amended_installer_values_witness :
    (∀ s : String,
      install_julia_windows ⟨"AMD64", true, true⟩ ≠ Except.ok (PyVal.str s)) ∧
    ((true : Bool) = true →
      install_julia_windows ⟨"AMD64", true, true⟩ =
        Except.ok (PyVal.bool true)) ∧
    ((none : Option String) = none →
      Except.ok (PyVal.bool true) = install_julia_windows ⟨"AMD64", true, true⟩ →
      (true : Bool) = true → (true : Bool) = true →
      ensure_julia_installation
        { checkResult := none,
          installResult := Except.ok (PyVal.bool true),
          pkgEnv := ⟨fun _ => 0, false, true, 0⟩,
          pyjuliaOk := true } = Except.ok PyVal.pynone) :=
  C3_amended_installer_values ⟨"AMD64", true, true⟩
    { checkResult := none,
      installResult := Except.ok (PyVal.bool true),
      pkgEnv := ⟨fun _ => 0, false, true, 0⟩,
      pyjuliaOk := true }

/-! ## C1 -/

/-- A concrete job environment: song.mp3 uploaded, Julia and ffmpeg
resolved, the external process exits 0, and two directories in the
working directory match the discovery suffix "_song". -/
def jobEnvTwoMatches : JobEnv :=
  { audioFile := some "song.mp3",
    juliaPath := some "julia",
    ffmpegPath := some "ffmpeg",
    returncode := 0,
    stderrText := "",
    stdoutText := "",
    extEffect := id,
    listing := [⟨"ab_song", true⟩, ⟨"cd_song", true⟩],
    raisesEx := false,
    exMessage := "",
    tracebackText := "" }

/-- C1: counterexample.  With exit code 0 and two matching directories,
process_audio_file does not fail: it takes the first match and returns a
zip archive path. -/
theorem C1_two_matches_still_archive :
    (generatedFolders jobEnvTwoMatches.listing "song").length = 2 ∧
    (process_audio_file jobEnvTwoMatches "job1" (fun _ => false)).result =
      JobResult.zipFile "output_maps/job1/song_beatsaber_maps.zip" := by
  constructor
  · decide
  · rfl

/-- C1 amended: after a 0 exit with no exception, the job fails (with the
could-not-find-folder pointer) exactly when zero directories match the
discovery suffix; whenever one or more match, the first is packaged and an
archive path is returned. -/
theorem C1_amended_zero_matches_only_failure :
    ∀ (env : JobEnv) (job_id : String) (fs0 : FS) (f jp fp : String),
      env.audioFile = some f → env.juliaPath = some jp →
      env.ffmpegPath = some fp → env.raisesEx = false → env.returncode = 0 →
      (((process_audio_file env job_id fs0).result =
          JobResult.noFolderSeeLog "process_log.txt") ↔
        generatedFolders env.listing (splitextBase f) = []) ∧
      ((∃ z, (process_audio_file env job_id fs0).result = JobResult.zipFile z) ↔
        generatedFolders env.listing (splitextBase f) ≠ []) := by
  intro env job_id fs0 f jp fp ha hj hf hr hc
  obtain ⟨a, j, ff, rc, se, so, ex, ls, rs, em, tb⟩ := env
  simp only at ha hj hf hr hc
  subst ha; subst hj; subst hf; subst hr; subst hc
  simp only [process_audio_file]
  cases hg : generatedFolders ls (splitextBase f) with
  | nil => simp [hg]
  | cons g rest => simp [hg]

/-- C1 amended, witness: the amended theorem applied to the concrete
two-match environment. -/
theorem C1_amended_zero_matches_only_failure_witness :
    (((process_audio_file jobEnvTwoMatches "job1" (fun _ => false)).result =
        JobResult.noFolderSeeLog "process_log.txt") ↔
      generatedFolders jobEnvTwoMatches.listing (splitextBase "song.mp3") = []) ∧
    ((∃ z, (process_audio_file jobEnvTwoMatches "job1" (fun _ => false)).result =
        JobResult.zipFile z) ↔
      generatedFolders jobEnvTwoMatches.listing (splitextBase "song.mp3") ≠ []) :=
  C1_amended_zero_matches_only_failure jobEnvTwoMatches "job1" (fun _ => false)
    "song.mp3" "julia" "ffmpeg" rfl rfl rfl rfl rfl

/-! ## C5 -/

/-- C5: for every job that reaches the copy of the input audio into
TEMP_DIR (the audio reference and the runtime path both resolved), the
processing copy is absent from the filesystem when process_audio_file
returns, on every path through the function — ffmpeg missing, process
failure, missing output directory, success, or an unexpected exception —
because the finally block removes it last. -/
theorem C5_processing_copy_removed :
    ∀ (env : JobEnv) (job_id : String) (fs0 : FS) (f jp : String),
      env.audioFile = some f → env.juliaPath = some jp →
      (process_audio_file env job_id fs0).fs (pathJoin TEMP_DIR f) = false := by
  intro env job_id fs0 f jp ha hj
  obtain ⟨a, j, ff, rc, se, so, ex, ls, rs, em, tb⟩ := env
  simp only at ha hj
  subst ha; subst hj
  simp only [process_audio_file]
  cases ff with
  | none => exact cleanupTempFile_removes _ _
  | some fp =>
    by_cases hrs : rs = true
    · simp only [hrs, if_true]
      exact cleanupTempFile_removes _ _
    · rw [Bool.not_eq_true] at hrs
      subst hrs
      simp only [Bool.false_eq_true, if_false]
      by_cases hrc : rc ≠ 0
      · simp only [if_pos hrc]
        exact cleanupTempFile_removes _ _
      · simp only [if_neg hrc]
        cases hg : generatedFolders ls (splitextBase f) with
        | nil =>
          simp only [hg]
          exact cleanupTempFile_removes _ _
        | cons g rest =>
          simp only [hg]
          exact cleanupTempFile_removes _ _

/-- C5 witness: the temp copy temp_uploads/song.mp3 is gone after the
concrete two-match job. -/
theorem C5_processing_copy_removed_witness :
    (process_audio_file jobEnvTwoMatches "job1" (fun _ => false)).fs
      (pathJoin TEMP_DIR "song.mp3") = false :=
  C5_processing_copy_removed jobEnvTwoMatches "job1" (fun _ => false)
    "song.mp3" "julia" rfl rfl

/-! ## C10 -/

/-- C10: whenever process_audio_file returns a failure value carrying the
see-log pointer, that pointer names process_log.txt, the log file exists
in the job's output directory at return time, the log holds the starting
line and a diagnostic line (the traceback, the stderr excerpt, or the
missing-folder message), and the job's output directory is still present
(under the side conditions that the processing copy's path differs from
the job's paths and that the external process does not touch the job's
output directory). -/
theorem C10_seelog_pointer_invariants :
    ∀ (env : JobEnv) (job_id : String) (fs0 : FS) (f jp b : String),
      env.audioFile = some f → env.juliaPath = some jp →
      pathJoin TEMP_DIR f ≠ pathJoin (pathJoin OUTPUT_DIR job_id) "process_log.txt" →
      pathJoin TEMP_DIR f ≠ pathJoin OUTPUT_DIR job_id →
      (∀ fs : FS, env.extEffect fs (pathJoin OUTPUT_DIR job_id) =
        fs (pathJoin OUTPUT_DIR job_id)) →
      ((process_audio_file env job_id fs0).result = JobResult.seeLog b ∨
       (process_audio_file env job_id fs0).result = JobResult.noFolderSeeLog b) →
      b = "process_log.txt" ∧
      (process_audio_file env job_id fs0).fs
        (pathJoin (pathJoin OUTPUT_DIR job_id) "process_log.txt") = true ∧
      (process_audio_file env job_id fs0).fs (pathJoin OUTPUT_DIR job_id) = true ∧
      ("Starting job " ++ job_id) ∈ (process_audio_file env job_id fs0).log ∧
      (env.tracebackText ∈ (process_audio_file env job_id fs0).log ∨
       ("Error message: " ++ excerpt env.stderrText) ∈
         (process_audio_file env job_id fs0).log ∨
       "Error: Could not find generated map folder" ∈
         (process_audio_file env job_id fs0).log) := by
  intro env job_id fs0 f jp b ha hj hne1 hne2 hext hres
  simp only [process_audio_file, ha, hj, log_message] at hres ⊢
  cases hff : env.ffmpegPath with
  | none =>
    simp only [hff] at hres
    rcases hres with h | h <;> simp at h
  | some fp =>
    simp only [hff] at hres ⊢
    by_cases hrs : env.raisesEx = true
    · simp only [hrs, if_true] at hres ⊢
      rcases hres with h | h
      · injection h with hb
        subst hb
        refine ⟨rfl, ?_, ?_, ?_, ?_⟩
        · rw [cleanupTempFile_other _ _ _ (Ne.symm hne1)]
          exact addFile_self _ _
        · rw [cleanupTempFile_other _ _ _ (Ne.symm hne2)]
          apply addFile_true; apply addFile_true; apply addFile_true
          rw [hext]
          apply addFile_true; apply addFile_true; apply addFile_true
          apply addFile_true; apply addFile_true; apply addFile_true
          apply addFile_true
          exact addFile_self _ _
        · simp
        · exact Or.inl (by simp)
      · simp at h
    · rw [Bool.not_eq_true] at hrs
      simp only [hrs, Bool.false_eq_true, if_false] at hres ⊢
      by_cases hrc : env.returncode ≠ 0
      · simp only [if_pos hrc] at hres ⊢
        rcases hres with h | h
        · injection h with hb
          subst hb
          refine ⟨rfl, ?_, ?_, ?_, ?_⟩
          · rw [cleanupTempFile_other _ _ _ (Ne.symm hne1)]
            exact logFold_fs_true _ _ _ _ (addFile_self _ _)
          · rw [cleanupTempFile_other _ _ _ (Ne.symm hne2)]
            apply logFold_fs_true
            apply addFile_true; apply addFile_true; apply addFile_true
            apply addFile_true; apply addFile_true; apply addFile_true
            rw [hext]
            apply addFile_true; apply addFile_true; apply addFile_true
            apply addFile_true; apply addFile_true; apply addFile_true
            apply addFile_true
            exact addFile_self _ _
          · exact logFold_mem _ _ _ _ (by simp)
          · exact Or.inr (Or.inl (logFold_mem _ _ _ _ (by simp)))
        · simp at h
      · simp only [if_neg hrc] at hres ⊢
        cases hg : generatedFolders env.listing (splitextBase f) with
        | nil =>
          simp only [hg] at hres ⊢
          rcases hres with h | h
          · simp at h
          · injection h with hb
            subst hb
            refine ⟨rfl, ?_, ?_, ?_, ?_⟩
            · rw [cleanupTempFile_other _ _ _ (Ne.symm hne1)]
              exact addFile_self _ _
            · rw [cleanupTempFile_other _ _ _ (Ne.symm hne2)]
              apply addFile_true; apply addFile_true; apply addFile_true
              rw [hext]
              apply addFile_true; apply addFile_true; apply addFile_true
              apply addFile_true; apply addFile_true; apply addFile_true
              apply addFile_true
              exact addFile_self _ _
            · simp
            · exact Or.inr (Or.inr (by simp))
        | cons g rest =>
          simp only [hg] at hres
          rcases hres with h | h <;> simp at h

/-- A concrete failing job: same environment but the external process
exits 1. -/
def jobEnvProcFails : JobEnv :=
  { jobEnvTwoMatches with returncode := 1 }

/-- C10 witness: the invariants instantiated at the concrete failing job,
which returns the see-log pointer after exit code 1. -/
theorem C10_seelog_pointer_invariants_witness :
    "process_log.txt" = "process_log.txt" ∧
    (process_audio_file jobEnvProcFails "job1" (fun _ => false)).fs
      (pathJoin (pathJoin OUTPUT_DIR "job1") "process_log.txt") = true ∧
    (process_audio_file jobEnvProcFails "job1" (fun _ => false)).fs
      (pathJoin OUTPUT_DIR "job1") = true ∧
    ("Starting job " ++ "job1") ∈
      (process_audio_file jobEnvProcFails "job1" (fun _ => false)).log ∧
    (jobEnvProcFails.tracebackText ∈
       (process_audio_file jobEnvProcFails "job1" (fun _ => false)).log ∨
     ("Error message: " ++ excerpt jobEnvProcFails.stderrText) ∈
       (process_audio_file jobEnvProcFails "job1" (fun _ => false)).log ∨
     "Error: Could not find generated map folder" ∈
       (process_audio_file jobEnvProcFails "job1" (fun _ => false)).log) :=
  C10_seelog_pointer_invariants jobEnvProcFails "job1" (fun _ => false)
    "song.mp3" "julia" "process_log.txt" rfl rfl (by decide) (by decide)
    (fun fs => rfl) (Or.inl rfl)
